import Mathlib

/-!
Shallow embedding of gVisor's per-task execution state machine
(`pkg/sentry/kernel/task_run.go`): the task driver loop (`Task.run`),
the stop gate (`Task.doStop`), and the hot-path transition function
(`runApp.execute`).

External collaborators (the platform `Switch`/`PullFullState`, syscall
dispatch, the signal-delivery subsystem, task-work callbacks, the arch
register rewrites) are modelled parametrically through an `Env` record of
oracles; every observable action the embedded source performs is recorded
in an event trace so that ordering properties can be stated.
-/

namespace TaskRun

/-- Linux signal numbers used by `runApp.execute` (from `abi/linux`). -/
def SIGILL : Nat := 4
def SIGTRAP : Nat := 5
def SIGBUS : Nat := 7
def SIGFPE : Nat := 8
def SIGKILL : Nat := 9
def SIGSEGV : Nat := 11
def SIGPROF : Nat := 27

/-- Run states of the task state machine (`taskRunState` implementations).
States other than `runApp` (whose `execute` is in `task_run.go`) are driven
by external code; `runExit` marks the exit path. -/
inductive RunState where
  | runApp
  | runInterrupt
  | runSyscall
  | runVsyscall
  | runExit
  | runExitMain
deriving DecidableEq, Repr

/-- Wait statuses prepared on exit paths: `linux.WaitStatusExit` (normal
exit with a code) versus `linux.WaitStatusTerminationSignal` (killed by a
signal). -/
inductive WaitStatus where
  | exited (code : Int)
  | signaled (sig : Nat)
deriving DecidableEq, Repr

/-- Architecture-visible register state relevant to `runApp.execute`:
the last syscall return value (`Arch().Return()`), the syscall number
(`Arch().SyscallNo()`), and the single-step flag
(`Arch().SingleStep()` / `SetSingleStep` / `ClearSingleStep`). -/
structure Arch where
  ret : Int
  sysno : Nat
  singleStep : Bool
deriving DecidableEq, Repr

/-- The per-task state read and written by `Task.run`, `Task.doStop` and
`runApp.execute`. Signal sets (`pendingSet`, `signalMask`,
`savedSignalMask`) are bitmasks indexed by signal number. -/
structure Task where
  stopCount : Nat
  interruptFlag : Bool
  pendingSet : Nat
  signalMask : Nat
  taskWorkCount : Nat
  haveSyscallReturn : Bool
  haveSavedSignalMask : Bool
  savedSignalMask : Nat
  rseqPreempted : Bool
  rseqAddr : Nat
  oldRSeqCPUAddr : Nat
  rseqCPU : Nat
  hasTracer : Bool
  ptraceSinglestep : Bool
  arch : Arch
deriving DecidableEq, Repr

/-- Truth of "some signal in the set `pending` is not blocked by `mask`",
over the 64 Linux signal numbers. -/
def hasUnmaskedPending (pending mask : Nat) : Bool :=
  (List.range 65).any (fun s => pending.testBit s && !(mask.testBit s))

/-- Modelled from the spec: `Task.interrupted` (in `task_signals.go`, not
in this corpus) reports a pending interruption — "signal queued for
delivery, or external interrupt flag set". A signal is queued for delivery
when it is pending and not blocked by the current signal mask. -/
def Task.interrupted (t : Task) : Bool :=
  t.interruptFlag || hasUnmaskedPending t.pendingSet t.signalMask

/-- Modelled from the spec: `Task.SetSignalMask` (in `task_signals.go`,
not in this corpus) replaces the task's signal mask; restoring a saved
mask "may itself reveal a newly unblocked pending signal", which the
derived `Task.interrupted` then reports. -/
def Task.setSignalMask (t : Task) (m : Nat) : Task :=
  { t with signalMask := m }

/-- Go `error` values dispatched on by the `switch err` at the end of
`runApp.execute`: the three sentinel errors of the platform package, or
any other (unknown) error. `Option GoErr` stands for a possibly-`nil`
error. -/
inductive GoErr where
  | contextInterrupt
  | contextSignal
  | contextCPUPreempted
  | other (code : Nat)
deriving DecidableEq, Repr

/-- The transient result of `platform.Context.Switch`: signal info
(`signo`, faulting `addr`), the access-type bitmask `at`, and the error
classifying the outcome. -/
structure SwitchOutcome where
  signo : Nat
  addr : Nat
  atRead : Bool
  atWrite : Bool
  atExecute : Bool
  err : Option GoErr
deriving DecidableEq, Repr

/-- Observable actions performed by the embedded source, in program
order. Only the code embedded here emits events; external collaborators
are opaque. -/
inductive Event where
  | stopCheck (c : Nat)
  | stopWait
  | taskWorkRun (n : Nat)
  | pullFullState (ok : Bool)
  | warningLogged
  | prepareExit (ws : WaitStatus)
  | restartSyscallWithRestartBlock (sysno : Nat)
  | restartSyscall (sysno : Nat)
  | setSignalMask (m : Nat)
  | rseqSetCPU (cpu : Nat)
  | rseqCopyOut (addr : Nat) (ok : Bool)
  | oldRseqCopyOut (addr : Nat) (ok : Bool)
  | rseqInterrupt
  | forceSignal (sig : Nat)
  | sendSignal (sig : Nat)
  | sendExternalSignal (sig : Nat)
  | setSingleStep
  | clearSingleStep
  | platformSwitch
  | handleUserFault (addr : Nat) (ok : Bool)
  | vsyscallEmulate (addr : Nat) (sysno : Nat)
  | doSyscall
  | externalState
  | prepareGroupExit (ws : WaitStatus)
  | teardownAccounting
deriving DecidableEq, Repr

/-- Syscall restart errnos recognised by
`linuxerr.SyscallRestartErrorFromReturn`. -/
inductive SyscallRestartErrno where
  | erestartsys
  | erestartnointr
  | erestartnohand
  | erestartRestartBlock
deriving DecidableEq, Repr

/-- Oracles for the external collaborators called from one driver-loop
iteration: task-work callbacks, `PullFullState`, the restart-errno
decoder, `hostcpu.GetCPU`, rseq copy-outs, the platform `Switch`, fault
handling, vsyscall lookup, the platform's reserved interrupt signal, and
the `execute` bodies of run states defined outside `task_run.go`. -/
structure Env where
  taskWorkEffect : Task → Task
  pullFullState : Option Nat
  sreFromReturn : Int → Option SyscallRestartErrno
  restartSyscallFn : Arch → Arch
  restartBlockFn : Arch → Arch
  extractErrno : Nat → Int
  getCPU : Nat
  rseqCopyOutOK : Bool
  oldRseqCopyOutOK : Bool
  switchOutcome : SwitchOutcome
  pullAfterSwitch : Option Nat
  handleUserFaultOK : Bool
  faultBusError : Bool
  lookupEmulate : Option Nat
  signalInterrupt : Nat
  doSyscall : Task → RunState × Task
  doVsyscall : Task → RunState × Task
  stepOther : RunState → Task → Option RunState × Task

/-- Control-flow result of one sequential block of `runApp.execute`:
either an early `return` with the next run state, or fall-through to the
next block. -/
inductive PhaseRes where
  | done (s : RunState) (t : Task) (tr : List Event)
  | cont (t : Task) (tr : List Event)

/-- Task-work drain of `runApp.execute`: if `taskWorkCount > 0`, take the
queue, reset the count, and run the callbacks (externally, via
`Env.taskWorkEffect`). -/
def phTaskWork (env : Env) (t : Task) : Task × List Event :=
  if t.taskWorkCount > 0 then
    (env.taskWorkEffect { t with taskWorkCount := 0 }, [Event.taskWorkRun t.taskWorkCount])
  else (t, [])

/-- Syscall-restart block of `runApp.execute`: under `haveSyscallReturn`,
pull the full state (a failure logs a warning, prepares a failure exit
status and returns `runExit`), then if the return value encodes a restart
errno rewrite the registers — via the restart block for
`ERESTART_RESTARTBLOCK`, plainly otherwise — and clear
`haveSyscallReturn`. -/
def phSyscallRestart (env : Env) (t : Task) : PhaseRes :=
  if t.haveSyscallReturn then
    match env.pullFullState with
    | some e =>
      .done .runExit t
        [Event.pullFullState false, Event.warningLogged,
         Event.prepareExit (.exited (env.extractErrno e))]
    | none =>
      match env.sreFromReturn t.arch.ret with
      | some sre =>
        if sre = .erestartRestartBlock then
          .cont { t with arch := env.restartBlockFn t.arch, haveSyscallReturn := false }
            [Event.pullFullState true, Event.restartSyscallWithRestartBlock t.arch.sysno]
        else
          .cont { t with arch := env.restartSyscallFn t.arch, haveSyscallReturn := false }
            [Event.pullFullState true, Event.restartSyscall t.arch.sysno]
      | none =>
        .cont { t with haveSyscallReturn := false } [Event.pullFullState true]
  else .cont t []

/-- Saved-signal-mask block of `runApp.execute`: under
`haveSavedSignalMask`, restore the saved mask, clear the flag, and return
`runInterrupt` if the task is now interrupted. -/
def phMask (t : Task) : PhaseRes :=
  if t.haveSavedSignalMask then
    let t' := { t.setSignalMask t.savedSignalMask with haveSavedSignalMask := false }
    if t'.interrupted then
      .done .runInterrupt t' [Event.setSignalMask t.savedSignalMask]
    else
      .cont t' [Event.setSignalMask t.savedSignalMask]
  else .cont t []

/-- Rseq block of `runApp.execute`: under `rseqPreempted`, clear the flag
first, then if an rseq address (new or old ABI) is registered recompute
the CPU id and copy it out; a copy failure forces and sends `SIGSEGV` to
the task itself and returns `runApp`; on success the rseq critical
section is interrupted. -/
def phRseq (env : Env) (t : Task) : PhaseRes :=
  if t.rseqPreempted then
    let t1 := { t with rseqPreempted := false }
    if t1.rseqAddr ≠ 0 || t1.oldRSeqCPUAddr ≠ 0 then
      let t2 := { t1 with rseqCPU := env.getCPU }
      if env.rseqCopyOutOK = false then
        .done .runApp t2
          [Event.rseqSetCPU env.getCPU, Event.rseqCopyOut t2.rseqAddr false,
           Event.forceSignal SIGSEGV, Event.sendSignal SIGSEGV]
      else if env.oldRseqCopyOutOK = false then
        .done .runApp t2
          [Event.rseqSetCPU env.getCPU, Event.rseqCopyOut t2.rseqAddr true,
           Event.oldRseqCopyOut t2.oldRSeqCPUAddr false,
           Event.forceSignal SIGSEGV, Event.sendSignal SIGSEGV]
      else
        .cont t2
          [Event.rseqSetCPU env.getCPU, Event.rseqCopyOut t2.rseqAddr true,
           Event.oldRseqCopyOut t2.oldRSeqCPUAddr true, Event.rseqInterrupt]
    else
      .cont t1 [Event.rseqInterrupt]
  else .cont t []

/-- Error value dispatched on after the switch: when the task has a
tracer, `PullFullState` runs again and a failure replaces the switch
error; otherwise the switch error stands. -/
def postSwitchErr (env : Env) (tracer : Bool) : Option GoErr :=
  if tracer then
    match env.pullAfterSwitch with
    | some e => some (.other e)
    | none => env.switchOutcome.err
  else env.switchOutcome.err

/-- Inner `switch sig` of the `ErrContextSignal` branch: the synchronous
signals `SIGILL, SIGSEGV, SIGBUS, SIGFPE, SIGTRAP` are forced and sent to
the task itself; `platform.SignalInterrupt` and `SIGPROF` are ignored;
every other signal goes to the external delivery path. All cases return
`runApp`. -/
def signalDispatch (env : Env) (sig : Nat) (t : Task) (pre : List Event) :
    RunState × Task × List Event :=
  if sig = SIGILL || sig = SIGSEGV || sig = SIGBUS || sig = SIGFPE || sig = SIGTRAP then
    (.runApp, t, pre ++ [Event.forceSignal sig, Event.sendSignal sig])
  else if sig = env.signalInterrupt then
    (.runApp, t, pre)
  else if sig = SIGPROF then
    (.runApp, t, pre)
  else
    (.runApp, t, pre ++ [Event.sendExternalSignal sig])

/-- Effects of the switch block before the error dispatch: force-enable
single-stepping for a tracer when requested (fields `clearSinglestep`,
`SetSingleStep`), the `platform.Context.Switch` call itself, the
conditional `ClearSingleStep`, and the re-pull of the full state when the
task has a tracer. Returns the task afterwards and the events in program
order. -/
def switchPre (env : Env) (t : Task) : Task × List Event :=
  let setSs := t.hasTracer && t.ptraceSinglestep
  let clearSs := setSs && !t.arch.singleStep
  let trSs := if setSs then [Event.setSingleStep] else []
  let arch1 := if setSs then { t.arch with singleStep := true } else t.arch
  let arch2 := if clearSs then { arch1 with singleStep := false } else arch1
  let trClr := if clearSs then [Event.clearSingleStep] else []
  let trPull :=
    if t.hasTracer then
      match env.pullAfterSwitch with
      | some _ => [Event.pullFullState false, Event.warningLogged]
      | none => [Event.pullFullState true]
    else []
  ({ t with arch := arch2 }, trSs ++ [Event.platformSwitch] ++ trClr ++ trPull)

/-- The `switch err` at the end of `runApp.execute`, dispatching on the
(possibly replaced) switch error: syscall handling, re-entry on
interrupt, fault resolution / vsyscall emulation / signal
classification, rseq-preemption marking, or a thread-group `SIGKILL`
exit for any unknown error. -/
def switchDispatch (env : Env) (t2 : Task) (pre : List Event) :
    RunState × Task × List Event :=
  let o := env.switchOutcome
  match postSwitchErr env t2.hasTracer with
  | none =>
    ((env.doSyscall t2).1, (env.doSyscall t2).2, pre ++ [Event.doSyscall])
  | some .contextInterrupt => (.runApp, t2, pre)
  | some .contextSignal =>
    if o.atRead || o.atWrite || o.atExecute then
      if env.handleUserFaultOK then
        (.runApp, t2, pre ++ [Event.handleUserFault o.addr true])
      else
        match (if o.atExecute then env.lookupEmulate else none) with
        | some sysno =>
          ((env.doVsyscall t2).1, (env.doVsyscall t2).2,
           pre ++ [Event.handleUserFault o.addr false,
                   Event.vsyscallEmulate o.addr sysno])
        | none =>
          let sig := if env.faultBusError then SIGBUS else o.signo
          signalDispatch env sig t2 (pre ++ [Event.handleUserFault o.addr false])
    else
      signalDispatch env o.signo t2 pre
  | some .contextCPUPreempted =>
    (.runApp, { t2 with rseqPreempted := true }, pre)
  | some (.other _) =>
    (.runExit, t2, pre ++ [Event.warningLogged, Event.prepareGroupExit (.signaled SIGKILL)])

/-- Switch block of `runApp.execute`: the pre-dispatch effects followed by
the error dispatch. -/
def phSwitch (env : Env) (t : Task) : RunState × Task × List Event :=
  switchDispatch env (switchPre env t).1 (switchPre env t).2

/-- The transition function of the `runApp` state (`runApp.execute` in
`task_run.go`): interrupt check, task-work drain, syscall-restart block,
saved-mask block, rseq block, then the platform switch and its result
classification, with early returns exactly where the source returns. -/
def runAppExecute (env : Env) (t : Task) : RunState × Task × List Event :=
  if t.interrupted then (.runInterrupt, t, [])
  else
    let t1 := (phTaskWork env t).1
    let tr1 := (phTaskWork env t).2
    match phSyscallRestart env t1 with
    | .done s t' tr2 => (s, t', tr1 ++ tr2)
    | .cont t2 tr2 =>
      match phMask t2 with
      | .done s t' tr3 => (s, t', tr1 ++ tr2 ++ tr3)
      | .cont t3 tr3 =>
        match phRseq env t3 with
        | .done s t' tr4 => (s, t', tr1 ++ tr2 ++ tr3 ++ tr4)
        | .cont t4 tr4 =>
          ((phSwitch env t4).1, (phSwitch env t4).2.1,
           tr1 ++ tr2 ++ tr3 ++ tr4 ++ (phSwitch env t4).2.2)

/-- Modelled from the spec: the exit path (`runExit`/`runExitMain`, in
`task_exit.go`, not in this corpus) performs cleanup and terminates the
state machine — "task termination is always represented as a run-state
value (no next state)" — without further platform switches. -/
def runExitExecute (t : Task) : Option RunState × Task × List Event :=
  (none, t, [])

/-- Dispatch of `t.runState.execute(t)`: `runApp` runs the transition
embedded above; the exit path terminates; every other state's `execute`
lives outside `task_run.go` and is driven by `Env.stepOther`. -/
def executeState (env : Env) (s : RunState) (t : Task) :
    Option RunState × Task × List Event :=
  match s with
  | .runApp =>
    (some (runAppExecute env t).1, (runAppExecute env t).2.1, (runAppExecute env t).2.2)
  | .runExit => runExitExecute t
  | s =>
    ((env.stepOther s t).1, (env.stepOther s t).2, [Event.externalState])

/-- The stop gate (`Task.doStop`): return immediately when the stop count
is zero, otherwise block on the stop condition until the count reaches
zero. -/
def doStopM (t : Task) : Task × List Event :=
  if t.stopCount = 0 then (t, [Event.stopCheck t.stopCount])
  else ({ t with stopCount := 0 }, [Event.stopCheck t.stopCount, Event.stopWait])

/-- The driver loop body of `Task.run`, one `Env` per iteration (the fuel):
stop-gate, then transition; a `none` next state triggers the teardown
accounting (the thread-group live-task decrement) exactly where the
source returns. Results: per-iteration traces, final task, final run
state (`none` when the goroutine exited, `some s` when fuel ran out), and
the remaining live-task count. -/
def taskRunLoop : List Env → RunState → Task → Nat →
    List (List Event) × Task × Option RunState × Nat
  | [], s, t, live => ([], t, some s, live)
  | env :: rest, s, t, live =>
    let t1 := (doStopM t).1
    let trS := (doStopM t).2
    let r := executeState env s t1
    match r.1 with
    | none => ([trS ++ r.2.2 ++ [Event.teardownAccounting]], r.2.1, none, live - 1)
    | some s' =>
      let k := taskRunLoop rest s' r.2.1 live
      ((trS ++ r.2.2) :: k.1, k.2.1, k.2.2.1, k.2.2.2)

/-- The task goroutine (`Task.run`): `interruptSelf` marks the freshly
started task interrupted, then the driver loop runs from the initial
`runApp` state. -/
def taskRun (envs : List Env) (t : Task) (live : Nat) :
    List (List Event) × Task × Option RunState × Nat :=
  taskRunLoop envs .runApp { t with interruptFlag := true } live

/-- Trace of events a phase emitted, in either control-flow outcome. -/
def PhaseRes.trace : PhaseRes → List Event
  | .done _ _ tr => tr
  | .cont _ tr => tr

/-- Recogniser for stop-gate checks in a trace. -/
def isStopCheck : Event → Bool
  | .stopCheck _ => true
  | _ => false

/-- Recogniser for thread-group exit preparation in a trace. -/
def isGroupExit : Event → Bool
  | .prepareGroupExit _ => true
  | _ => false

/-- Recogniser for single-task exit preparation in a trace. -/
def isPrepExit : Event → Bool
  | .prepareExit _ => true
  | _ => false

/-- Recogniser for `PullFullState` calls in a trace. -/
def isPull : Event → Bool
  | .pullFullState _ => true
  | _ => false

/-- Recogniser for platform switches (application code execution) in a
trace. -/
def isSwitch : Event → Bool
  | .platformSwitch => true
  | _ => false

/-- Recogniser for teardown accounting in a trace. -/
def isTeardown : Event → Bool
  | .teardownAccounting => true
  | _ => false

/-- Recogniser for rseq CPU-id copy-outs to the (new ABI) registered
address. -/
def isRseqCopy : Event → Bool
  | .rseqCopyOut _ _ => true
  | _ => false

/-- A quiescent task fixture: nothing pending, nothing saved, no rseq
registration, no tracer. -/
def task0 : Task :=
  { stopCount := 0, interruptFlag := false, pendingSet := 0, signalMask := 0,
    taskWorkCount := 0, haveSyscallReturn := false, haveSavedSignalMask := false,
    savedSignalMask := 0, rseqPreempted := false, rseqAddr := 0,
    oldRSeqCPUAddr := 0, rseqCPU := 0, hasTracer := false,
    ptraceSinglestep := false, arch := { ret := 0, sysno := 0, singleStep := false } }

/-- A benign environment fixture: pulls succeed, no restart indicated,
copies succeed, the switch reports a context interrupt, external states
step back to `runApp`. -/
def env0 : Env :=
  { taskWorkEffect := id
    pullFullState := none
    sreFromReturn := fun _ => none
    restartSyscallFn := id
    restartBlockFn := id
    extractErrno := fun _ => 4
    getCPU := 2
    rseqCopyOutOK := true
    oldRseqCopyOutOK := true
    switchOutcome :=
      { signo := 0, addr := 0, atRead := false, atWrite := false,
        atExecute := false, err := some .contextInterrupt }
    pullAfterSwitch := none
    handleUserFaultOK := false
    faultBusError := false
    lookupEmulate := none
    signalInterrupt := 17
    doSyscall := fun t => (.runApp, t)
    doVsyscall := fun t => (.runApp, t)
    stepOther := fun _ t => (some .runApp, t) }

/-! ### Structural lemmas about the emitted traces -/

/-- Events appended by the signal dispatch beyond its prefix are never
stop-gate checks or thread-group exits. -/
theorem signalDispatch_ev (env : Env) (sig : Nat) (t : Task) (pre : List Event) :
    ∀ e ∈ (signalDispatch env sig t pre).2.2,
      e ∈ pre ∨ (isStopCheck e = false ∧ isGroupExit e = false) := by
  intro e he
  simp only [signalDispatch] at he
  repeat' split at he
  all_goals (try exact Or.inl he)
  all_goals rcases List.mem_append.1 he with h | h
  all_goals (try exact Or.inl h)
  all_goals right
  all_goals simp only [List.mem_cons, List.not_mem_nil, or_false] at h
  all_goals first
    | (rcases h with h | h <;> subst h <;> exact ⟨rfl, rfl⟩)
    | (subst h; exact ⟨rfl, rfl⟩)

/-- Every event of the error dispatch is either from its prefix or is not
a stop-gate check, and a thread-group exit can only be the `SIGKILL` one
of the unknown-error branch, which also forces the `runExit` state. -/
theorem switchDispatch_ev (env : Env) (t2 : Task) (pre : List Event) :
    ∀ e ∈ (switchDispatch env t2 pre).2.2,
      e ∈ pre ∨ (isStopCheck e = false ∧
        (isGroupExit e = false ∨
          (e = Event.prepareGroupExit (.signaled SIGKILL) ∧
           (switchDispatch env t2 pre).1 = .runExit ∧
           ∃ k, postSwitchErr env t2.hasTracer = some (.other k)))) := by
  intro e he
  rcases hpe : postSwitchErr env t2.hasTracer with _ | gi
  · simp only [switchDispatch, hpe] at he
    rcases List.mem_append.1 he with h | h
    · exact Or.inl h
    · simp only [List.mem_cons, List.not_mem_nil, or_false] at h
      subst h; exact Or.inr ⟨rfl, Or.inl rfl⟩
  · cases gi
    · simp only [switchDispatch, hpe] at he
      exact Or.inl he
    · simp only [switchDispatch, hpe] at he
      by_cases ha : (env.switchOutcome.atRead || env.switchOutcome.atWrite ||
          env.switchOutcome.atExecute) = true
      · rw [if_pos ha] at he
        by_cases hf : env.handleUserFaultOK = true
        · rw [if_pos hf] at he
          rcases List.mem_append.1 he with h | h
          · exact Or.inl h
          · simp only [List.mem_cons, List.not_mem_nil, or_false] at h
            subst h; exact Or.inr ⟨rfl, Or.inl rfl⟩
        · rw [if_neg hf] at he
          rcases hl : (if env.switchOutcome.atExecute then env.lookupEmulate else none)
              with _ | sysno <;> rw [hl] at he
          · rcases signalDispatch_ev _ _ _ _ e he with h | h
            · rcases List.mem_append.1 h with h2 | h2
              · exact Or.inl h2
              · simp only [List.mem_cons, List.not_mem_nil, or_false] at h2
                subst h2; exact Or.inr ⟨rfl, Or.inl rfl⟩
            · exact Or.inr ⟨h.1, Or.inl h.2⟩
          · rcases List.mem_append.1 he with h | h
            · exact Or.inl h
            · simp only [List.mem_cons, List.not_mem_nil, or_false] at h
              rcases h with h | h <;> (subst h; exact Or.inr ⟨rfl, Or.inl rfl⟩)
      · rw [if_neg ha] at he
        rcases signalDispatch_ev _ _ _ _ e he with h | h
        · exact Or.inl h
        · exact Or.inr ⟨h.1, Or.inl h.2⟩
    · simp only [switchDispatch, hpe] at he
      exact Or.inl he
    · simp only [switchDispatch, hpe] at he
      rcases List.mem_append.1 he with h | h
      · exact Or.inl h
      · simp only [List.mem_cons, List.not_mem_nil, or_false] at h
        rcases h with h | h
        · subst h; exact Or.inr ⟨rfl, Or.inl rfl⟩
        · subst h
          rename_i k
          exact Or.inr ⟨rfl, Or.inr ⟨rfl, by simp [switchDispatch, hpe], ⟨k, rfl⟩⟩⟩

/-- The task-work drain emits neither stop-gate checks nor thread-group
exits. -/
theorem phTaskWork_ev (env : Env) (t : Task) :
    ∀ e ∈ (phTaskWork env t).2, isStopCheck e = false ∧ isGroupExit e = false := by
  unfold phTaskWork
  repeat' split
  all_goals simp [isStopCheck, isGroupExit, List.forall_mem_cons]

/-- The syscall-restart block emits neither stop-gate checks nor
thread-group exits. -/
theorem phSyscallRestart_ev (env : Env) (t : Task) :
    ∀ e ∈ (phSyscallRestart env t).trace,
      isStopCheck e = false ∧ isGroupExit e = false := by
  unfold phSyscallRestart
  repeat' split
  all_goals simp [PhaseRes.trace, isStopCheck, isGroupExit, List.forall_mem_cons]

/-- The saved-mask block emits neither stop-gate checks nor thread-group
exits. -/
theorem phMask_ev (t : Task) :
    ∀ e ∈ (phMask t).trace, isStopCheck e = false ∧ isGroupExit e = false := by
  simp only [phMask, apply_ite PhaseRes.trace]
  repeat' split
  all_goals simp [PhaseRes.trace, isStopCheck, isGroupExit, List.forall_mem_cons]

/-- The rseq block emits neither stop-gate checks nor thread-group
exits. -/
theorem phRseq_ev (env : Env) (t : Task) :
    ∀ e ∈ (phRseq env t).trace, isStopCheck e = false ∧ isGroupExit e = false := by
  simp only [phRseq, apply_ite PhaseRes.trace]
  repeat' split
  all_goals simp [PhaseRes.trace, isStopCheck, isGroupExit, List.forall_mem_cons]

/-- The pre-dispatch switch effects emit neither stop-gate checks nor
thread-group exits. -/
theorem switchPre_ev (env : Env) (t : Task) :
    ∀ e ∈ (switchPre env t).2, isStopCheck e = false ∧ isGroupExit e = false := by
  simp only [switchPre]
  repeat' split
  all_goals simp [isStopCheck, isGroupExit, List.forall_mem_cons]

/-- Events of one `runApp.execute` invocation are never stop-gate checks,
and a thread-group exit among them can only be the `SIGKILL` one of the
unknown-switch-error branch, which also forces the `runExit` state. -/
theorem runAppExecute_ev (env : Env) (t : Task) :
    ∀ e ∈ (runAppExecute env t).2.2,
      isStopCheck e = false ∧
      (isGroupExit e = false ∨
        (e = Event.prepareGroupExit (.signaled SIGKILL) ∧
         (runAppExecute env t).1 = .runExit ∧
         ∃ b k, postSwitchErr env b = some (.other k))) := by
  intro e he
  by_cases hif : t.interrupted = true
  · simp [runAppExecute, hif] at he
  · rw [Bool.not_eq_true] at hif
    simp only [runAppExecute, hif, Bool.false_eq_true, if_false] at he ⊢
    have hw : ∀ h : e ∈ (phTaskWork env t).2,
        isStopCheck e = false ∧ isGroupExit e = false :=
      fun h => phTaskWork_ev env t e h
    rcases h2 : phSyscallRestart env (phTaskWork env t).1 with ⟨s2, tB, tr2⟩ | ⟨tB, tr2⟩ <;>
      simp only [h2] at he ⊢
    · rcases List.mem_append.1 he with h | h
      · exact ⟨(hw h).1, Or.inl (hw h).2⟩
      · have := phSyscallRestart_ev env (phTaskWork env t).1 e (by rw [h2]; exact h)
        exact ⟨this.1, Or.inl this.2⟩
    · have hr2 : ∀ h : e ∈ tr2, isStopCheck e = false ∧ isGroupExit e = false :=
        fun h => phSyscallRestart_ev env (phTaskWork env t).1 e (by rw [h2]; exact h)
      rcases h3 : phMask tB with ⟨s3, tC, tr3⟩ | ⟨tC, tr3⟩ <;> simp only [h3] at he ⊢
      · rcases List.mem_append.1 he with h | h
        · rcases List.mem_append.1 h with h2m | h2m
          · exact ⟨(hw h2m).1, Or.inl (hw h2m).2⟩
          · exact ⟨(hr2 h2m).1, Or.inl (hr2 h2m).2⟩
        · have := phMask_ev tB e (by rw [h3]; exact h)
          exact ⟨this.1, Or.inl this.2⟩
      · have hr3 : ∀ h : e ∈ tr3, isStopCheck e = false ∧ isGroupExit e = false :=
          fun h => phMask_ev tB e (by rw [h3]; exact h)
        rcases h4 : phRseq env tC with ⟨s4, tD, tr4⟩ | ⟨tD, tr4⟩ <;> simp only [h4] at he ⊢
        · rcases List.mem_append.1 he with h | h
          · rcases List.mem_append.1 h with h2m | h2m
            · rcases List.mem_append.1 h2m with h3m | h3m
              · exact ⟨(hw h3m).1, Or.inl (hw h3m).2⟩
              · exact ⟨(hr2 h3m).1, Or.inl (hr2 h3m).2⟩
            · exact ⟨(hr3 h2m).1, Or.inl (hr3 h2m).2⟩
          · have := phRseq_ev env tC e (by rw [h4]; exact h)
            exact ⟨this.1, Or.inl this.2⟩
        · have hr4 : ∀ h : e ∈ tr4, isStopCheck e = false ∧ isGroupExit e = false :=
            fun h => phRseq_ev env tC e (by rw [h4]; exact h)
          rcases List.mem_append.1 he with h | h
          · rcases List.mem_append.1 h with h2m | h2m
            · rcases List.mem_append.1 h2m with h3m | h3m
              · rcases List.mem_append.1 h3m with h4m | h4m
                · exact ⟨(hw h4m).1, Or.inl (hw h4m).2⟩
                · exact ⟨(hr2 h4m).1, Or.inl (hr2 h4m).2⟩
              · exact ⟨(hr3 h3m).1, Or.inl (hr3 h3m).2⟩
            · exact ⟨(hr4 h2m).1, Or.inl (hr4 h2m).2⟩
          · have hsd := switchDispatch_ev env (switchPre env tD).1 (switchPre env tD).2 e h
            rcases hsd with hin | ⟨hsc, hrest⟩
            · have := switchPre_ev env tD e hin
              exact ⟨this.1, Or.inl this.2⟩
            · refine ⟨hsc, ?_⟩
              rcases hrest with hge | ⟨hwx, hst, k, hk⟩
              · exact Or.inl hge
              · exact Or.inr ⟨hwx, hst, ⟨(switchPre env tD).1.hasTracer, k, hk⟩⟩

/-- Shape of the stop gate: exactly one check, a wait exactly when the
count was nonzero, and a zero count on return. -/
theorem doStopM_shape (t : Task) :
    (doStopM t).2 = Event.stopCheck t.stopCount ::
      (if t.stopCount = 0 then [] else [Event.stopWait]) ∧
    ((doStopM t).1).stopCount = 0 := by
  unfold doStopM
  split <;> simp_all

/-- No run-state transition emits a stop-gate check: the only checks in a
driver trace come from `Task.doStop`. -/
theorem executeState_no_stopCheck (env : Env) (s : RunState) (t : Task) :
    ∀ e ∈ (executeState env s t).2.2, isStopCheck e = false := by
  cases s <;> simp only [executeState, runExitExecute]
  case runApp => exact fun e he => (runAppExecute_ev env t e he).1
  all_goals intro e he
  all_goals simp only [List.mem_singleton, List.not_mem_nil] at he
  all_goals first
    | exact absurd he (by simp)
    | (subst he; rfl)

/-- Every iteration of the driver loop starts with exactly one stop-gate
check; a nonzero count is immediately followed by the blocking wait, and
no further check occurs within the iteration. -/
theorem taskRunLoop_iter (envs : List Env) (s : RunState) (t : Task) (live : Nat) :
    ∀ tr ∈ (taskRunLoop envs s t live).1,
      ∃ c rest, tr = Event.stopCheck c :: rest ∧
        (∀ e ∈ rest, isStopCheck e = false) ∧
        (c ≠ 0 → ∃ rest2, rest = Event.stopWait :: rest2) := by
  induction envs generalizing s t live with
  | nil =>
    intro tr htr
    simp [taskRunLoop] at htr
  | cons env more ih =>
    intro tr htr
    simp only [taskRunLoop] at htr
    cases hex : (executeState env s ((doStopM t).1)).1 with
    | none =>
      rw [hex] at htr
      simp only [List.mem_singleton] at htr
      subst htr
      refine ⟨t.stopCount,
        ((if t.stopCount = 0 then ([] : List Event) else [Event.stopWait]) ++
          (executeState env s ((doStopM t).1)).2.2) ++ [Event.teardownAccounting],
        ?_, ?_, ?_⟩
      · rw [(doStopM_shape t).1]
        simp [List.cons_append, List.append_assoc]
      · intro e he
        rcases List.mem_append.1 he with h | h
        · rcases List.mem_append.1 h with h2 | h2
          · split at h2
            · simp at h2
            · simp only [List.mem_singleton] at h2
              subst h2; rfl
          · exact executeState_no_stopCheck env s ((doStopM t).1) e h2
        · simp only [List.mem_singleton] at h
          subst h; rfl
      · intro hc
        rw [if_neg hc]
        exact ⟨(executeState env s ((doStopM t).1)).2.2 ++ [Event.teardownAccounting],
          by simp [List.cons_append, List.append_assoc]⟩
    | some s2 =>
      rw [hex] at htr
      rcases List.mem_cons.1 htr with htr2 | htr2
      · subst htr2
        refine ⟨t.stopCount,
          (if t.stopCount = 0 then ([] : List Event) else [Event.stopWait]) ++
            (executeState env s ((doStopM t).1)).2.2, ?_, ?_, ?_⟩
        · rw [(doStopM_shape t).1]
          simp [List.cons_append]
        · intro e he
          rcases List.mem_append.1 he with h | h
          · split at h
            · simp at h
            · simp only [List.mem_singleton] at h
              subst h; rfl
          · exact executeState_no_stopCheck env s ((doStopM t).1) e h
        · intro hc
          rw [if_neg hc]
          exact ⟨(executeState env s ((doStopM t).1)).2.2, by simp [List.cons_append]⟩
      · exact ih s2 ((executeState env s ((doStopM t).1)).2.1) live tr htr2

/-! ### Witness fixtures -/

/-- Environment indicating a restart-via-restart-block request. -/
def env3 : Env := { env0 with sreFromReturn := fun _ => some .erestartRestartBlock }

/-- Environment whose first `PullFullState` fails with error code 3. -/
def env5 : Env := { env0 with pullFullState := some 3 }

/-- Environment whose switch returns an unknown error. -/
def env6 : Env := { env0 with switchOutcome :=
  { signo := 0, addr := 0, atRead := false, atWrite := false, atExecute := false,
    err := some (.other 5) } }

/-- Environment whose switch reports a CPU preemption. -/
def env7 : Env := { env0 with switchOutcome :=
  { signo := 0, addr := 0, atRead := false, atWrite := false, atExecute := false,
    err := some .contextCPUPreempted } }

/-- Environment whose rseq copy-out fails. -/
def env8 : Env := { env0 with rseqCopyOutOK := false }

/-- Environment whose post-switch `PullFullState` fails with error code 7. -/
def env9 : Env := { env0 with pullAfterSwitch := some 7 }

/-- Environment whose switch reports a `SIGSEGV` with no fault access. -/
def env10 : Env := { env0 with switchOutcome :=
  { signo := 11, addr := 0, atRead := false, atWrite := false, atExecute := false,
    err := some .contextSignal } }

/-! ### Claims -/

/-- C1: in every driver-loop iteration — including the very first one
after task creation — exactly one stop-gate check happens before the
state transition (the iteration trace starts with the single `stopCheck`
of `Task.doStop` and contains no other); when the checked stop count is
nonzero the thread blocks immediately (the check is followed by the
blocking wait before any transition event, so no application code can
run while the count is nonzero); and the transition always starts from a
task whose stop count has reached zero. -/
theorem stop_gate_before_every_transition :
    (∀ (envs : List Env) (t : Task) (live : Nat) (tr : List Event),
        tr ∈ (taskRun envs t live).1 →
        ∃ c rest, tr = Event.stopCheck c :: rest ∧
          (∀ e ∈ rest, isStopCheck e = false) ∧
          (c ≠ 0 → ∃ rest2, rest = Event.stopWait :: rest2)) ∧
    (∀ t : Task, ((doStopM t).1).stopCount = 0) :=
  ⟨fun envs t live tr htr =>
      taskRunLoop_iter envs .runApp { t with interruptFlag := true } live tr htr,
   fun t => (doStopM_shape t).2⟩

/-- Witness for C1: a freshly created task with stop count 2 blocks on
the gate in its first iteration, before any other event. -/
theorem stop_gate_before_every_transition_witness :
    ∃ c rest, [Event.stopCheck 2, Event.stopWait] = Event.stopCheck c :: rest ∧
      (∀ e ∈ rest, isStopCheck e = false) ∧
      (c ≠ 0 → ∃ rest2, rest = Event.stopWait :: rest2) :=
  stop_gate_before_every_transition.1 [env0] { task0 with stopCount := 2 } 1
    [Event.stopCheck 2, Event.stopWait] (by decide)

/-- C2: a task entering `runApp` with a pending interruption (queued
deliverable signal or interrupt flag) transitions to `runInterrupt`
immediately: the task state is untouched and the trace is empty, so no
task-work callback, no syscall-restart or signal-mask processing, and no
platform switch happens first. -/
theorem runApp_pending_interrupt_short_circuit (env : Env) (t : Task)
    (h : t.interrupted = true) :
    runAppExecute env t = (.runInterrupt, t, []) := by
  simp [runAppExecute, h]

/-- Witness for C2 on a concrete interrupted task. -/
theorem runApp_pending_interrupt_short_circuit_witness :
    runAppExecute env0 { task0 with interruptFlag := true } =
      (.runInterrupt, { task0 with interruptFlag := true }, []) :=
  runApp_pending_interrupt_short_circuit env0 { task0 with interruptFlag := true }
    (by decide)

/-- C3: on a `runApp` entry with an unconsumed syscall return whose value
encodes a restart errno, after a successful state pull the registers are
rewritten — through the restart block when the recorded errno is
`ERESTART_RESTARTBLOCK`, as a plain restart of the original syscall
number otherwise — and `haveSyscallReturn` is cleared before the platform
switch. -/
theorem runApp_syscall_restart_rewrite (env : Env) (t : Task)
    (sre : SyscallRestartErrno)
    (h1 : t.interrupted = false) (h2 : t.taskWorkCount = 0)
    (h3 : t.haveSyscallReturn = true) (h4 : env.pullFullState = none)
    (h5 : env.sreFromReturn t.arch.ret = some sre)
    (h6 : t.haveSavedSignalMask = false) (h7 : t.rseqPreempted = false)
    (h8 : t.hasTracer = false)
    (h9 : env.switchOutcome.err = some .contextInterrupt) :
    (sre = .erestartRestartBlock →
      runAppExecute env t =
        (.runApp, { t with arch := env.restartBlockFn t.arch, haveSyscallReturn := false },
         [Event.pullFullState true, Event.restartSyscallWithRestartBlock t.arch.sysno,
          Event.platformSwitch])) ∧
    (sre ≠ .erestartRestartBlock →
      runAppExecute env t =
        (.runApp, { t with arch := env.restartSyscallFn t.arch, haveSyscallReturn := false },
         [Event.pullFullState true, Event.restartSyscall t.arch.sysno,
          Event.platformSwitch])) := by
  constructor <;> intro hb <;>
    simp [runAppExecute, phTaskWork, phSyscallRestart, phMask, phRseq, phSwitch,
          switchPre, switchDispatch, postSwitchErr,
          h1, h2, h3, h4, h5, h6, h7, h8, h9, hb]

/-- Witness for C3: a concrete restart-block rewrite. -/
theorem runApp_syscall_restart_rewrite_witness :
    runAppExecute env3 { task0 with haveSyscallReturn := true } =
      (.runApp, task0,
       [Event.pullFullState true, Event.restartSyscallWithRestartBlock 0,
        Event.platformSwitch]) :=
  (runApp_syscall_restart_rewrite env3 { task0 with haveSyscallReturn := true }
    .erestartRestartBlock (by decide) (by decide) (by decide) rfl rfl (by decide)
    (by decide) (by decide) rfl).1 rfl

/-- C4: on a `runApp` entry with a saved signal mask, the mask is
restored (and the flag cleared) before any further signal check: if the
restored mask reveals a newly unblocked pending signal the transition
returns `runInterrupt` with no rseq event and no platform switch in the
trace; otherwise execution proceeds to the switch with the restored
mask. -/
theorem runApp_saved_mask_restored_before_signal_check (env : Env) (t : Task)
    (h1 : t.interruptFlag = false)
    (h2 : hasUnmaskedPending t.pendingSet t.signalMask = false)
    (h3 : t.taskWorkCount = 0) (h4 : t.haveSyscallReturn = false)
    (h5 : t.haveSavedSignalMask = true) :
    (hasUnmaskedPending t.pendingSet t.savedSignalMask = true →
      runAppExecute env t =
        (.runInterrupt, { t with signalMask := t.savedSignalMask, haveSavedSignalMask := false },
         [Event.setSignalMask t.savedSignalMask])) ∧
    (hasUnmaskedPending t.pendingSet t.savedSignalMask = false →
     t.rseqPreempted = false → t.hasTracer = false →
     env.switchOutcome.err = some .contextInterrupt →
      runAppExecute env t =
        (.runApp, { t with signalMask := t.savedSignalMask, haveSavedSignalMask := false },
         [Event.setSignalMask t.savedSignalMask, Event.platformSwitch])) := by
  constructor
  · intro hu
    simp [runAppExecute, phTaskWork, phSyscallRestart, phMask, Task.interrupted,
          Task.setSignalMask, h1, h2, h3, h4, h5, hu]
  · intro hu hr htr herr
    simp [runAppExecute, phTaskWork, phSyscallRestart, phMask, phRseq, phSwitch,
          switchPre, switchDispatch, postSwitchErr, Task.interrupted, Task.setSignalMask,
          h1, h2, h3, h4, h5, hu, hr, htr, herr]

/-- Witness for C4: restoring an empty mask over a blocked pending
signal 1 yields `runInterrupt`. -/
theorem runApp_saved_mask_restored_before_signal_check_witness :
    runAppExecute env0
        { task0 with pendingSet := 2, signalMask := 2, haveSavedSignalMask := true } =
      (.runInterrupt, { task0 with pendingSet := 2 }, [Event.setSignalMask 0]) :=
  (runApp_saved_mask_restored_before_signal_check env0
    { task0 with pendingSet := 2, signalMask := 2, haveSavedSignalMask := true }
    (by decide) (by decide) (by decide) (by decide) (by decide)).1 (by decide)

/-- C5: when the state pull of the syscall-restart block fails, that
iteration logs a warning, prepares a single-task exit with a failure
status, and transitions to `runExit`; the driver then tears the task
down: across the whole remaining run there is exactly one
`PullFullState` call (no retry), no platform switch, exactly one
`prepareExit` and exactly one teardown accounting (the live-task count
decrements exactly once). -/
theorem pull_failure_single_task_exit_teardown_once
    (env1 env2 : Env) (more : List Env) (t : Task) (live : Nat) (ec : Nat)
    (h1 : t.interrupted = false) (h2 : t.taskWorkCount = 0)
    (h3 : t.haveSyscallReturn = true) (h4 : env1.pullFullState = some ec) :
    taskRunLoop (env1 :: env2 :: more) .runApp t live =
      ([Event.stopCheck t.stopCount ::
          ((if t.stopCount = 0 then [] else [Event.stopWait]) ++
           [Event.pullFullState false, Event.warningLogged,
            Event.prepareExit (.exited (env1.extractErrno ec))]),
        [Event.stopCheck 0, Event.teardownAccounting]],
       (doStopM t).1, none, live - 1) ∧
    (((taskRunLoop (env1 :: env2 :: more) .runApp t live).1).flatten.countP
        (fun e => isTeardown e) = 1 ∧
     ((taskRunLoop (env1 :: env2 :: more) .runApp t live).1).flatten.countP
        (fun e => isPull e) = 1 ∧
     ((taskRunLoop (env1 :: env2 :: more) .runApp t live).1).flatten.countP
        (fun e => isSwitch e) = 0 ∧
     ((taskRunLoop (env1 :: env2 :: more) .runApp t live).1).flatten.countP
        (fun e => isPrepExit e) = 1) := by
  have heq : taskRunLoop (env1 :: env2 :: more) .runApp t live =
      ([Event.stopCheck t.stopCount ::
          ((if t.stopCount = 0 then [] else [Event.stopWait]) ++
           [Event.pullFullState false, Event.warningLogged,
            Event.prepareExit (.exited (env1.extractErrno ec))]),
        [Event.stopCheck 0, Event.teardownAccounting]],
       (doStopM t).1, none, live - 1) := by
    simp only [taskRunLoop, executeState, runAppExecute, runExitExecute,
      phTaskWork, phSyscallRestart, doStopM]
    by_cases hs : t.stopCount = 0 <;>
      simp_all [taskRunLoop, executeState, runAppExecute, runExitExecute,
        phTaskWork, phSyscallRestart, doStopM, Task.interrupted]
  refine ⟨heq, ?_⟩
  rw [heq]
  by_cases hs : t.stopCount = 0 <;>
    simp [hs, isTeardown, isPull, isSwitch, isPrepExit,
      List.countP_cons, List.countP_append, isStopCheck]

/-- Witness for C5 on a concrete pull failure. -/
theorem pull_failure_single_task_exit_teardown_once_witness :
    taskRunLoop [env5, env0] .runApp { task0 with haveSyscallReturn := true } 7 =
      ([[Event.stopCheck 0, Event.pullFullState false, Event.warningLogged,
         Event.prepareExit (.exited 4)],
        [Event.stopCheck 0, Event.teardownAccounting]],
       { task0 with haveSyscallReturn := true }, none, 6) ∧
    (((taskRunLoop [env5, env0] .runApp
        { task0 with haveSyscallReturn := true } 7).1).flatten.countP
        (fun e => isTeardown e) = 1 ∧
     ((taskRunLoop [env5, env0] .runApp
        { task0 with haveSyscallReturn := true } 7).1).flatten.countP
        (fun e => isPull e) = 1 ∧
     ((taskRunLoop [env5, env0] .runApp
        { task0 with haveSyscallReturn := true } 7).1).flatten.countP
        (fun e => isSwitch e) = 0 ∧
     ((taskRunLoop [env5, env0] .runApp
        { task0 with haveSyscallReturn := true } 7).1).flatten.countP
        (fun e => isPrepExit e) = 1) :=
  pull_failure_single_task_exit_teardown_once env5 env0 []
    { task0 with haveSyscallReturn := true } 7 3 (by decide) (by decide) (by decide) rfl

/-- C6: a platform switch whose error is outside the known outcome set
forces a thread-group exit with `SIGKILL` and transitions to `runExit`;
moreover any thread-group exit ever prepared by `runApp.execute` is that
`SIGKILL` one and forces `runExit`, and when the effective switch error
is in the known set no thread-group exit is prepared at all — every
other error class stays within the single task. -/
theorem unknown_switch_error_kills_thread_group (env : Env) (t : Task) (k : Nat)
    (h1 : t.interrupted = false) (h2 : t.taskWorkCount = 0)
    (h3 : t.haveSyscallReturn = false) (h4 : t.haveSavedSignalMask = false)
    (h5 : t.rseqPreempted = false) (h6 : t.hasTracer = false)
    (h7 : env.switchOutcome.err = some (.other k)) :
    (runAppExecute env t =
      (.runExit, t, [Event.platformSwitch, Event.warningLogged,
        Event.prepareGroupExit (.signaled SIGKILL)])) ∧
    (∀ (env2 : Env) (t2 : Task) (w : WaitStatus),
       Event.prepareGroupExit w ∈ (runAppExecute env2 t2).2.2 →
       w = .signaled SIGKILL ∧ (runAppExecute env2 t2).1 = .runExit) ∧
    (∀ (env2 : Env) (t2 : Task) (w : WaitStatus),
       env2.pullAfterSwitch = none →
       (env2.switchOutcome.err = none ∨ env2.switchOutcome.err = some .contextInterrupt ∨
        env2.switchOutcome.err = some .contextSignal ∨
        env2.switchOutcome.err = some .contextCPUPreempted) →
       Event.prepareGroupExit w ∉ (runAppExecute env2 t2).2.2) := by
  refine ⟨?_, ?_, ?_⟩
  · simp [runAppExecute, phTaskWork, phSyscallRestart, phMask, phRseq, phSwitch,
          switchPre, switchDispatch, postSwitchErr,
          h1, h2, h3, h4, h5, h6, h7]
    cases t
    simp_all
  · intro env2 t2 w hmem
    rcases runAppExecute_ev env2 t2 _ hmem with ⟨hsc, hge | ⟨hw, hst, _⟩⟩
    · exact absurd hge (by simp [isGroupExit])
    · injection hw with hw2
      exact ⟨hw2, hst⟩
  · intro env2 t2 w hpull hknown hmem
    rcases runAppExecute_ev env2 t2 _ hmem with ⟨hsc, hge | ⟨hw, hst, b, k2, hk⟩⟩
    · exact absurd hge (by simp [isGroupExit])
    · have hpost : postSwitchErr env2 b = env2.switchOutcome.err := by
        unfold postSwitchErr
        cases b <;> simp [hpull]
      rw [hpost] at hk
      rcases hknown with h | h | h | h <;> simp_all

/-- Witness for C6 on a concrete unknown switch error. -/
theorem unknown_switch_error_kills_thread_group_witness :
    runAppExecute env6 task0 =
      (.runExit, task0, [Event.platformSwitch, Event.warningLogged,
        Event.prepareGroupExit (.signaled SIGKILL)]) :=
  (unknown_switch_error_kills_thread_group env6 task0 5 (by decide) (by decide)
    (by decide) (by decide) (by decide) (by decide) rfl).1

/-- C7: a CPU-preempted switch outcome only sets the (Boolean)
rseq-preempted flag and returns `runApp` without any copy-out; an entry
that finds the flag set — however many preemptions or external events
set it — performs exactly one CPU-id copy-out per registered address
before the platform switch, having cleared the flag first, so the flag
is `true` again afterwards only if that next switch is itself preempted
and stays cleared otherwise. -/
theorem rseq_preemption_flag_single_copyout (env : Env) (t : Task)
    (h1 : t.interrupted = false) (h2 : t.taskWorkCount = 0)
    (h3 : t.haveSyscallReturn = false) (h4 : t.haveSavedSignalMask = false)
    (h6 : t.hasTracer = false) :
    (t.rseqPreempted = false → env.switchOutcome.err = some .contextCPUPreempted →
      runAppExecute env t =
        (.runApp, { t with rseqPreempted := true }, [Event.platformSwitch])) ∧
    (t.rseqPreempted = true → t.rseqAddr ≠ 0 →
     env.rseqCopyOutOK = true → env.oldRseqCopyOutOK = true →
     env.switchOutcome.err = some .contextCPUPreempted →
      runAppExecute env t =
        (.runApp, { t with rseqPreempted := true, rseqCPU := env.getCPU },
         [Event.rseqSetCPU env.getCPU, Event.rseqCopyOut t.rseqAddr true,
          Event.oldRseqCopyOut t.oldRSeqCPUAddr true, Event.rseqInterrupt,
          Event.platformSwitch])) ∧
    (t.rseqPreempted = true → t.rseqAddr ≠ 0 →
     env.rseqCopyOutOK = true → env.oldRseqCopyOutOK = true →
     env.switchOutcome.err = some .contextInterrupt →
      runAppExecute env t =
        (.runApp, { t with rseqPreempted := false, rseqCPU := env.getCPU },
         [Event.rseqSetCPU env.getCPU, Event.rseqCopyOut t.rseqAddr true,
          Event.oldRseqCopyOut t.oldRSeqCPUAddr true, Event.rseqInterrupt,
          Event.platformSwitch])) := by
  refine ⟨?_, ?_, ?_⟩
  · intro hr herr
    simp [runAppExecute, phTaskWork, phSyscallRestart, phMask, phRseq, phSwitch,
          switchPre, switchDispatch, postSwitchErr,
          h1, h2, h3, h4, h6, hr, herr]
  · intro hr ha hc hoc herr
    simp [runAppExecute, phTaskWork, phSyscallRestart, phMask, phRseq, phSwitch,
          switchPre, switchDispatch, postSwitchErr,
          h1, h2, h3, h4, h6, hr, ha, hc, hoc, herr]
  · intro hr ha hc hoc herr
    simp [runAppExecute, phTaskWork, phSyscallRestart, phMask, phRseq, phSwitch,
          switchPre, switchDispatch, postSwitchErr,
          h1, h2, h3, h4, h6, hr, ha, hc, hoc, herr]

/-- Witness for C7: a concrete CPU preemption marks the flag only. -/
theorem rseq_preemption_flag_single_copyout_witness :
    runAppExecute env7 task0 =
      (.runApp, { task0 with rseqPreempted := true }, [Event.platformSwitch]) :=
  (rseq_preemption_flag_single_copyout env7 task0 (by decide) (by decide) (by decide)
    (by decide) (by decide)).1 (by decide) rfl

/-- C8: a failing rseq CPU-id copy-out forces and sends `SIGSEGV` to the
task itself and returns `runApp` (so the signal path runs on re-entry);
the trace shows no exit preparation and no platform switch — the driver
does not abort the task directly. -/
theorem rseq_copyout_failure_delivers_sigsegv (env : Env) (t : Task)
    (h1 : t.interrupted = false) (h2 : t.taskWorkCount = 0)
    (h3 : t.haveSyscallReturn = false) (h4 : t.haveSavedSignalMask = false)
    (h5 : t.rseqPreempted = true) (h6 : t.rseqAddr ≠ 0)
    (h7 : env.rseqCopyOutOK = false) :
    runAppExecute env t =
      (.runApp, { t with rseqPreempted := false, rseqCPU := env.getCPU },
       [Event.rseqSetCPU env.getCPU, Event.rseqCopyOut t.rseqAddr false,
        Event.forceSignal SIGSEGV, Event.sendSignal SIGSEGV]) := by
  simp [runAppExecute, phTaskWork, phSyscallRestart, phMask, phRseq,
        h1, h2, h3, h4, h5, h6, h7]

/-- Witness for C8 on a concrete copy-out failure. -/
theorem rseq_copyout_failure_delivers_sigsegv_witness :
    runAppExecute env8 { task0 with rseqPreempted := true, rseqAddr := 100 } =
      (.runApp, { task0 with rseqAddr := 100, rseqCPU := 2 },
       [Event.rseqSetCPU 2, Event.rseqCopyOut 100 false,
        Event.forceSignal 11, Event.sendSignal 11]) :=
  rseq_copyout_failure_delivers_sigsegv env8
    { task0 with rseqPreempted := true, rseqAddr := 100 }
    (by decide) (by decide) (by decide) (by decide) (by decide) (by decide) rfl

/-- C9: a traced task re-pulls the full state after every switch (the
pull event directly follows the switch event); a failing pull replaces
the switch outcome, so — whatever the switch reported — the unknown-error
branch runs: a thread-group `SIGKILL` exit, not the single-task
`prepareExit` of the restart-path pull failure. -/
theorem traced_pull_failure_replaces_switch_outcome (env : Env) (t : Task) (ec : Nat)
    (h1 : t.interrupted = false) (h2 : t.taskWorkCount = 0)
    (h3 : t.haveSyscallReturn = false) (h4 : t.haveSavedSignalMask = false)
    (h5 : t.rseqPreempted = false)
    (h6 : t.hasTracer = true) (h7 : t.ptraceSinglestep = false) :
    (env.pullAfterSwitch = some ec →
      runAppExecute env t =
        (.runExit, t, [Event.platformSwitch, Event.pullFullState false, Event.warningLogged,
          Event.warningLogged, Event.prepareGroupExit (.signaled SIGKILL)])) ∧
    (env.pullAfterSwitch = none → env.switchOutcome.err = some .contextInterrupt →
      runAppExecute env t =
        (.runApp, t, [Event.platformSwitch, Event.pullFullState true])) := by
  constructor
  · intro h8
    simp [runAppExecute, phTaskWork, phSyscallRestart, phMask, phRseq, phSwitch,
          switchPre, switchDispatch, postSwitchErr,
          h1, h2, h3, h4, h5, h6, h7, h8]
    cases t
    simp_all
  · intro h8 h9
    simp [runAppExecute, phTaskWork, phSyscallRestart, phMask, phRseq, phSwitch,
          switchPre, switchDispatch, postSwitchErr,
          h1, h2, h3, h4, h5, h6, h7, h8, h9]
    cases t
    simp_all

/-- Witness for C9 on a concrete traced pull failure. -/
theorem traced_pull_failure_replaces_switch_outcome_witness :
    runAppExecute env9 { task0 with hasTracer := true } =
      (.runExit, { task0 with hasTracer := true },
       [Event.platformSwitch, Event.pullFullState false, Event.warningLogged,
        Event.warningLogged, Event.prepareGroupExit (.signaled 9)]) :=
  (traced_pull_failure_replaces_switch_outcome env9 { task0 with hasTracer := true } 7
    (by decide) (by decide) (by decide) (by decide) (by decide) (by decide)
    (by decide)).1 rfl

/-- C10: for a signal outcome with no fault access, the synchronous
signals `SIGILL, SIGSEGV, SIGBUS, SIGFPE, SIGTRAP` are forced and sent to
the task itself; the platform's reserved interrupt signal and `SIGPROF`
(when not among those five) are silently discarded — no force, no send,
no external hand-off — and every other signal goes to the external
delivery path; all cases return `runApp`. -/
theorem signal_outcome_classification (env : Env) (t : Task)
    (h1 : t.interrupted = false) (h2 : t.taskWorkCount = 0)
    (h3 : t.haveSyscallReturn = false) (h4 : t.haveSavedSignalMask = false)
    (h5 : t.rseqPreempted = false) (h6 : t.hasTracer = false)
    (h7 : env.switchOutcome.err = some .contextSignal)
    (h8 : env.switchOutcome.atRead = false) (h9 : env.switchOutcome.atWrite = false)
    (h10 : env.switchOutcome.atExecute = false) :
    ((env.switchOutcome.signo = SIGILL ∨ env.switchOutcome.signo = SIGSEGV ∨
      env.switchOutcome.signo = SIGBUS ∨ env.switchOutcome.signo = SIGFPE ∨
      env.switchOutcome.signo = SIGTRAP) →
      runAppExecute env t =
        (.runApp, t, [Event.platformSwitch, Event.forceSignal env.switchOutcome.signo,
          Event.sendSignal env.switchOutcome.signo])) ∧
    (¬(env.switchOutcome.signo = SIGILL ∨ env.switchOutcome.signo = SIGSEGV ∨
       env.switchOutcome.signo = SIGBUS ∨ env.switchOutcome.signo = SIGFPE ∨
       env.switchOutcome.signo = SIGTRAP) →
     env.switchOutcome.signo = env.signalInterrupt →
      runAppExecute env t = (.runApp, t, [Event.platformSwitch])) ∧
    (¬(env.switchOutcome.signo = SIGILL ∨ env.switchOutcome.signo = SIGSEGV ∨
       env.switchOutcome.signo = SIGBUS ∨ env.switchOutcome.signo = SIGFPE ∨
       env.switchOutcome.signo = SIGTRAP) →
     env.switchOutcome.signo ≠ env.signalInterrupt →
     env.switchOutcome.signo = SIGPROF →
      runAppExecute env t = (.runApp, t, [Event.platformSwitch])) ∧
    (¬(env.switchOutcome.signo = SIGILL ∨ env.switchOutcome.signo = SIGSEGV ∨
       env.switchOutcome.signo = SIGBUS ∨ env.switchOutcome.signo = SIGFPE ∨
       env.switchOutcome.signo = SIGTRAP) →
     env.switchOutcome.signo ≠ env.signalInterrupt →
     env.switchOutcome.signo ≠ SIGPROF →
      runAppExecute env t =
        (.runApp, t, [Event.platformSwitch,
          Event.sendExternalSignal env.switchOutcome.signo])) := by
  refine ⟨?_, ?_, ?_, ?_⟩
  · intro hsig
    simp only [runAppExecute, phTaskWork, phSyscallRestart, phMask, phRseq, phSwitch,
          switchPre, switchDispatch, postSwitchErr, signalDispatch,
          h1, h2, h3, h4, h5, h6, h7, h8, h9, h10]
    rcases hsig with h | h | h | h | h <;>
      simp [h, SIGILL, SIGSEGV, SIGBUS, SIGFPE, SIGTRAP, h1, h2, h3, h4, h5, h6] <;>
      (cases t; simp_all)
  · intro hsig hi
    push_neg at hsig
    simp [runAppExecute, phTaskWork, phSyscallRestart, phMask, phRseq, phSwitch,
          switchPre, switchDispatch, postSwitchErr, signalDispatch,
          h1, h2, h3, h4, h5, h6, h7, h8, h9, h10,
          hsig.1, hsig.2.1, hsig.2.2.1, hsig.2.2.2.1, hsig.2.2.2.2, hi]
    cases t
    simp_all
  · intro hsig hi hp
    push_neg at hsig
    simp [runAppExecute, phTaskWork, phSyscallRestart, phMask, phRseq, phSwitch,
          switchPre, switchDispatch, postSwitchErr, signalDispatch,
          h1, h2, h3, h4, h5, h6, h7, h8, h9, h10,
          hsig.1, hsig.2.1, hsig.2.2.1, hsig.2.2.2.1, hsig.2.2.2.2, hi, hp]
    cases t
    simp_all
  · intro hsig hi hp
    push_neg at hsig
    simp [runAppExecute, phTaskWork, phSyscallRestart, phMask, phRseq, phSwitch,
          switchPre, switchDispatch, postSwitchErr, signalDispatch,
          h1, h2, h3, h4, h5, h6, h7, h8, h9, h10,
          hsig.1, hsig.2.1, hsig.2.2.1, hsig.2.2.2.1, hsig.2.2.2.2, hi, hp]
    cases t
    simp_all

/-- Witness for C10: a concrete `SIGSEGV` outcome is forced and sent to
the task itself. -/
theorem signal_outcome_classification_witness :
    runAppExecute env10 task0 =
      (.runApp, task0, [Event.platformSwitch, Event.forceSignal 11,
        Event.sendSignal 11]) :=
  (signal_outcome_classification env10 task0 (by decide) (by decide) (by decide)
    (by decide) (by decide) (by decide) rfl (by decide) (by decide) (by decide)).1
    (Or.inr (Or.inl rfl))

end TaskRun
